import Mathlib

/-!
Shallow embedding of the Python-AAM client library (instipod/Python-AAM):
`AAMApi.py` (official transport), `AAMUnofficial.py` (unofficial transport)
and `AxisAudioManager.py` (target model and orchestrator).

HTTP exchanges are modelled by passing the remote response (status code and
decoded body) as explicit parameters; Python exceptions are modelled by
`Except PyErr`; Python `None` is modelled by `Option.none`.
-/

/-- Kinds of Python exceptions the embedded code can raise. -/
inductive PyErr
  | keyError
  | runtimeError
  | typeError
  | attributeError
  | indexError
  | valueError
  | notImplementedError
  deriving DecidableEq

/-- Models Python `str.split("_")`: splits a string at every underscore. -/
def split_underscore_aux : List Char → List Char → List (List Char)
  | [], acc => [acc.reverse]
  | c :: cs, acc =>
    if c = '_' then acc.reverse :: split_underscore_aux cs []
    else split_underscore_aux cs (c :: acc)

/-- Models Python `id.split("_")` on a whole string. -/
def splitOnUnderscore (s : String) : List String :=
  (split_underscore_aux s.toList []).map (fun l => String.mk l)

/-- Models Python `int(s)` on a non-negative decimal string (digit accumulator). -/
def parse_decimal_aux : List Char → Nat → Option Nat
  | [], acc => some acc
  | c :: cs, acc =>
    if '0' ≤ c ∧ c ≤ '9' then parse_decimal_aux cs (acc * 10 + (c.toNat - 48))
    else none

/-- Models Python `int(s)`: `none` models the `ValueError` raised on a
non-numeric or empty string. -/
def parse_decimal (s : String) : Option Nat :=
  match s.toList with
  | [] => none
  | l => parse_decimal_aux l 0

/-- Models `int(self.id.split("_")[1])`: the numeric portion of a target id
such as `dev_5`. `indexError` models the missing separator, `valueError` a
non-numeric portion. -/
def numeric_sink_id (id : String) : Except PyErr Nat :=
  match (splitOnUnderscore id).get? 1 with
  | none => Except.error PyErr.indexError
  | some s =>
    match parse_decimal s with
    | none => Except.error PyErr.valueError
    | some n => Except.ok n

/-- Hardware device record from the unofficial device listing: the nested
`sinks` sub-records are kept as their numeric sink ids, `mac` is the
hardware address field and `tag` distinguishes records. -/
structure HwDevice where
  sinks : List Nat
  mac : String
  tag : Nat
  deriving DecidableEq

/-- Embeds `AAMDevice._load_device_info` as a function of the cached device
list and the pre-parsed numeric sink id (the Python code re-parses the id at
each sink comparison; the parse is hoisted here, identical on well-formed
ids). Returns the `device_info_loaded` flag and the record stored into
`device_info` (`none` when the fields are left untouched). The Python scan
assigns `this = device` without breaking, so the last matching record wins
for `this`; the subsequent store `self.device_info = device` reads the loop
variable, which after the loop is the LAST record of the cached list. -/
def load_device_info (devices : List HwDevice) (sid : Nat) :
    Bool × Option HwDevice :=
  let this := devices.foldl
    (fun acc d => if sid ∈ d.sinks then some d else acc) none
  match this with
  | none => (false, none)
  | some _ => (true, devices.getLast?)

/-- Concrete cached record whose sink list contains id 5. -/
def hwDevA : HwDevice := ⟨[5], "00:40:8C:AA:AA:AA", 1⟩

/-- Concrete cached record whose sink list contains id 7 only. -/
def hwDevB : HwDevice := ⟨[7], "00:40:8C:BB:BB:BB", 2⟩

/-- Session state of `AAMUnofficial`: the cached OAuth access token and its
expiry time. `expires_at` is initialised to construction time, so a fresh
instance holds no token. Times are modelled as integers. -/
structure UnoState where
  access_token : Option String
  expires_at : Int
  deriving DecidableEq

/-- Embeds `AAMUnofficial.get_access_token` at current time `t`.
`acq = some (tok, expiresIn)` models a 200 response from the token endpoint
carrying `access_token` and `expires_in`; `acq = none` models any other
status. Returns the token (or `none`) and the updated session state. -/
def get_access_token (s : UnoState) (t : Int)
    (acq : Option (String × Int)) : Option String × UnoState :=
  match acq with
  | some (tok, expIn) => (some tok, ⟨some tok, t + expIn⟩)
  | none => (none, s)

/-- Embeds the refresh condition of `AAMUnofficial._execute_api_request`:
`self.access_token is None or time.time() - self.expires_at > 0`. -/
def token_refresh_needed (s : UnoState) (t : Int) : Bool :=
  s.access_token.isNone || decide (t - s.expires_at > 0)

/-- Embeds the token-handling prefix of `AAMUnofficial._execute_api_request`
at current time `t`: on success returns the number of token-acquisition
calls issued (0 or 1) and the session state under which the request
proceeds; `runtimeError` models the `RuntimeError` raised when acquisition
fails. -/
def execute_api_request_auth (s : UnoState) (t : Int)
    (acq : Option (String × Int)) : Except PyErr (Nat × UnoState) :=
  if token_refresh_needed s t then
    match get_access_token s t acq with
    | (none, _) => Except.error PyErr.runtimeError
    | (some _, s') => Except.ok (1, s')
  else Except.ok (0, s)

/-- Embeds `AAMUnofficial.set_volume_calibration`'s result: the PUT succeeds
exactly on HTTP 204. -/
def set_volume_calibration_ok (status : Nat) : Bool :=
  status == 204

/-- Embeds `AAMUnofficial.start_test_tone`: `int(device_id)` then a POST
whose success is exactly HTTP 201. -/
def start_test_tone (device_id : String) (status : Nat) :
    Except PyErr Bool :=
  match parse_decimal device_id with
  | none => Except.error PyErr.valueError
  | some _ => Except.ok (status == 201)

/-- Embeds `AAMUnofficial.assign_device_to_zone`: `successfulIds = some ids`
models a response body containing the `successfulIds` key. On HTTP 200 with
the key present the result is membership of the device id; on HTTP 200
without the key the function falls off the end and returns Python `None`
(modelled `Option.none`); on any other status it returns `False`. -/
def assign_device_to_zone (_zone_id : String) (device_id : Nat)
    (status : Nat) (successfulIds : Option (List Nat)) : Option Bool :=
  if status = 200 then
    match successfulIds with
    | some ids => some (decide (device_id ∈ ids))
    | none => none
  else some false

/-- Embeds `AAMUnofficial.get_devices`: HTTP 200 yields the decoded device
list, any other status yields Python `None`. -/
def uno_get_devices (status : Nat) (data : List HwDevice) :
    Option (List HwDevice) :=
  if status = 200 then some data else none

/-- Embeds `AAMApi.get_audio_target` for target `id`: the remote response is
modelled by its status code and decoded body. HTTP 200 yields the record,
404 yields Python `None`, and any other status raises `RuntimeError`. -/
def get_audio_target (_id : String) (status : Nat) (body : HwDevice) :
    Except PyErr (Option HwDevice) :=
  if status = 200 then Except.ok (some body)
  else if status = 404 then Except.ok none
  else Except.error PyErr.runtimeError

/-- Embeds `AAMApi.play_audio_file`: validates the priority (raising
`KeyError` on an invalid value), then returns Python `None` without a
request when either list is empty, and otherwise issues the POST, decoding
a 200 body and raising `RuntimeError` on any other status. The second
component records whether a network request was issued. -/
def play_audio_file (targets : List String) (files : List String)
    (priority : String) (status : Nat) (body : Nat) :
    (Except PyErr (Option Nat)) × Bool :=
  if priority ≠ "HIGH" ∧ priority ≠ "MEDIUM" ∧ priority ≠ "LOW" then
    (Except.error PyErr.keyError, false)
  else if targets.length < 1 ∨ files.length < 1 then
    (Except.ok none, false)
  else if status = 200 then (Except.ok (some body), true)
  else (Except.error PyErr.runtimeError, true)

/-- Embeds `AxisAudioManager.are_unofficial_features_enabled`: both web
credentials must have been supplied at construction. -/
def are_unofficial_features_enabled
    (web_username web_password : Option String) : Bool :=
  web_username.isSome && web_password.isSome

/-- Embeds `AxisAudioManager._get_uno_api_object`: the unofficial driver is
handed out only when unofficial features are enabled; otherwise Python
`None` is returned (modelled `Option.none`). -/
def get_uno_api_object (enabled : Bool) : Option Unit :=
  if enabled then some () else none

/-- Orchestrator state relevant to the hardware device cache: whether
unofficial features are enabled (fixed at construction) and the cached
`self.devices` value, which is a list after `__init__` or a disabled
refresh but becomes Python `None` when an enabled refresh fails. -/
structure OrchState where
  enabled : Bool
  devices : Option (List HwDevice)
  deriving DecidableEq

/-- State established by `AxisAudioManager.__init__`: `self.devices = []`. -/
def initOrchState (enabled : Bool) : OrchState :=
  ⟨enabled, some []⟩

/-- Embeds `AxisAudioManager.refresh_devices`: with unofficial features
enabled the cache is overwritten with the unofficial listing's result
(`fetch`, possibly `none`), otherwise it is cleared to the empty list.
The second component counts network fetches issued (1 or 0). -/
def refresh_devices (s : OrchState) (fetch : Option (List HwDevice)) :
    OrchState × Nat :=
  if s.enabled then ({ s with devices := fetch }, 1)
  else ({ s with devices := some [] }, 0)

/-- Embeds `AxisAudioManager.get_devices`: when unofficial features are
enabled and the cached list is empty it refreshes first, then returns
`self.devices`. Python `and` short-circuits, so `len(self.devices)` is only
evaluated when enabled; evaluating `len(None)` raises `TypeError`. Returns
the value handed to the caller, the successor state and the number of
network fetches issued. -/
def orch_get_devices (s : OrchState) (fetch : Option (List HwDevice)) :
    Except PyErr (Option (List HwDevice) × OrchState × Nat) :=
  if s.enabled then
    match s.devices with
    | none => Except.error PyErr.typeError
    | some l =>
      if l.length = 0 then
        let r := refresh_devices s fetch
        Except.ok (r.1.devices, r.1, r.2)
      else Except.ok (some l, s, 0)
  else Except.ok (s.devices, s, 0)

/-- States of the orchestrator reachable from construction through the
device-cache operations. -/
inductive OrchReachable : OrchState → Prop
  | init (e : Bool) : OrchReachable (initOrchState e)
  | refresh (s : OrchState) (fetch : Option (List HwDevice))
      (h : OrchReachable s) : OrchReachable (refresh_devices s fetch).1
  | get (s : OrchState) (fetch : Option (List HwDevice))
      (r : Option (List HwDevice)) (s' : OrchState) (n : Nat)
      (h : OrchReachable s)
      (hr : orch_get_devices s fetch = Except.ok (r, s', n)) :
      OrchReachable s'

/-- Typed views a raw audio-target record can be classified into. -/
inductive TargetClass
  | physicalZone
  | site
  | device
  | generic
  deriving DecidableEq

/-- Embeds `AAMAudioTarget.get_cast_object`'s dispatch on the record's
`type` string: `physicalZone`, `site` and `device` select the specialized
views, anything else keeps the generic target. -/
def get_cast_object (ty : String) : TargetClass :=
  if ty = "physicalZone" then TargetClass.physicalZone
  else if ty = "site" then TargetClass.site
  else if ty = "device" then TargetClass.device
  else TargetClass.generic

/-- Embeds the scope selection shared by
`AAMVolumeTarget.get_volume_calibration_level` and
`set_volume_calibration_level`: `zones` for a physical zone, `sites`
otherwise. -/
def volume_typeclass (ty : String) : String :=
  if ty = "physicalZone" then "zones" else "sites"

/-- A call issued against the unofficial volume-calibration endpoints:
the scope string, the scope-relative id, the volume category
(`none` for the category-less GET) and the gain offset sent
(`none` for a GET). -/
structure UnoCall where
  scope : String
  rid : String
  category : Option String
  volume : Option Int
  deriving DecidableEq

/-- Result of `get_volume_calibration_level`: the full category mapping for
`ALL`, a single entry for a specific category. -/
inductive VolResult
  | all (vols : List (String × Int))
  | single (v : Int)
  deriving DecidableEq

/-- Embeds `AAMVolumeTarget.get_volume_calibration_level` for a target of
type string `ty` and id `id`. The remote GET's response is modelled by its
status and the decoded `volumes` mapping. Disabled unofficial features
raise `NotImplementedError`; a non-200 status raises `RuntimeError` inside
`AAMUnofficial.get_volume_calibration`; an unknown specific category
raises `KeyError` on the decoded mapping. The issued call is returned next
to the result. -/
def get_volume_calibration_level (enabled : Bool) (ty id vtype : String)
    (status : Nat) (volumes : List (String × Int)) :
    Except PyErr (UnoCall × VolResult) :=
  if !enabled then Except.error PyErr.notImplementedError
  else
    let typeclass := volume_typeclass ty
    match (splitOnUnderscore id).get? 1 with
    | none => Except.error PyErr.indexError
    | some rid =>
      if status = 200 then
        if vtype = "ALL" then
          Except.ok (⟨typeclass, rid, none, none⟩, VolResult.all volumes)
        else
          match volumes.lookup vtype with
          | none => Except.error PyErr.keyError
          | some v =>
            Except.ok (⟨typeclass, rid, none, none⟩, VolResult.single v)
      else Except.error PyErr.runtimeError

/-- Embeds `AAMVolumeTarget.set_volume_calibration_level` for a target of
type string `ty` and id `id`, setting gain `volume` for category `vtype`.
`respond` gives the HTTP status of the underlying PUT for each category;
each underlying `AAMUnofficial.set_volume_calibration` reports success
exactly on 204. Returns the list of issued calls in order together with
the combined boolean result. Disabled unofficial features raise
`NotImplementedError`; an unknown category raises `KeyError`. -/
def set_volume_calibration_level (enabled : Bool) (ty id vtype : String)
    (volume : Int) (respond : String → Nat) :
    Except PyErr (List UnoCall × Bool) :=
  if !enabled then Except.error PyErr.notImplementedError
  else
    let typeclass := volume_typeclass ty
    if vtype = "MUSIC" ∨ vtype = "ANNOUNCEMENT" ∨ vtype = "PAGING" then
      match (splitOnUnderscore id).get? 1 with
      | none => Except.error PyErr.indexError
      | some rid =>
        Except.ok ([⟨typeclass, rid, some vtype, some volume⟩],
          set_volume_calibration_ok (respond vtype))
    else if vtype = "ALL" then
      match (splitOnUnderscore id).get? 1 with
      | none => Except.error PyErr.indexError
      | some rid =>
        let page := set_volume_calibration_ok (respond "PAGING")
        let annc := set_volume_calibration_ok (respond "ANNOUNCEMENT")
        let music := set_volume_calibration_ok (respond "MUSIC")
        Except.ok ([⟨typeclass, rid, some "PAGING", some volume⟩,
          ⟨typeclass, rid, some "ANNOUNCEMENT", some volume⟩,
          ⟨typeclass, rid, some "MUSIC", some volume⟩],
          page && annc && music)
    else Except.error PyErr.keyError

/-- Embeds `AAMDevice.ding`: the unofficial driver is fetched first, so a
disabled configuration fails with `AttributeError` (attribute access on
Python `None`) before the id is even split; otherwise the test tone is
triggered with the scope-relative id. -/
def aamDevice_ding (enabled : Bool) (id : String) (status : Nat) :
    Except PyErr Bool :=
  match get_uno_api_object enabled with
  | none => Except.error PyErr.attributeError
  | some _ =>
    match (splitOnUnderscore id).get? 1 with
    | none => Except.error PyErr.indexError
    | some did => start_test_tone did status

/-- Embeds the returned result of `AAMDevice.assign_to_zone` with the zone
already normalised to its scope-relative id string: a disabled
configuration fails with `AttributeError` on the absent unofficial driver;
otherwise the device's scope-relative id is parsed and the unofficial
assignment call's result is returned. -/
def aamDevice_assign_to_zone (enabled : Bool) (id : String)
    (zone_id : String) (status : Nat)
    (successfulIds : Option (List Nat)) : Except PyErr (Option Bool) :=
  match get_uno_api_object enabled with
  | none => Except.error PyErr.attributeError
  | some _ =>
    match (splitOnUnderscore id).get? 1 with
    | none => Except.error PyErr.indexError
    | some did =>
      match parse_decimal did with
      | none => Except.error PyErr.valueError
      | some n => Except.ok (assign_device_to_zone zone_id n status
          successfulIds)

/-- Embeds `AAMDevice.get_mac_address` on a device whose hardware record is
not yet loaded: `get_device_information` triggers `_load_device_info`,
which scans the orchestrator's cached device list; when no record is
stored, `device_info` stays the empty dict and the `mac` lookup raises
`KeyError`. -/
def get_mac_address (s : OrchState) (fetch : Option (List HwDevice))
    (id : String) : Except PyErr String :=
  match numeric_sink_id id with
  | Except.error e => Except.error e
  | Except.ok sid =>
    match orch_get_devices s fetch with
    | Except.error e => Except.error e
    | Except.ok (none, _, _) => Except.error PyErr.typeError
    | Except.ok (some devs, _, _) =>
      match (load_device_info devs sid).2 with
      | none => Except.error PyErr.keyError
      | some d => Except.ok d.mac

/-- C1: for device `dev_5` (numeric sink id 5) and the cached list
`[hwDevA, hwDevB]`, the only record containing sink id 5 is `hwDevA`, yet
`_load_device_info` sets the loaded flag and stores `hwDevB` — the final
record of the cached list (the loop variable after the scan) — rather than
the matched record, contradicting the claim that the first matching record
is the one stored. -/
theorem c1_load_device_info_stores_last_record :
    numeric_sink_id "dev_5" = Except.ok 5 ∧
    load_device_info [hwDevA, hwDevB] 5 = (true, some hwDevB) ∧
    (5 ∈ hwDevA.sinks ∧ ¬ 5 ∈ hwDevB.sinks) ∧
    hwDevB ≠ hwDevA := by
  refine ⟨rfl, rfl, by decide, by decide⟩

/-- Helper: `refresh_devices` never changes the enablement flag. -/
theorem refresh_devices_enabled (s : OrchState)
    (fetch : Option (List HwDevice)) :
    (refresh_devices s fetch).1.enabled = s.enabled := by
  unfold refresh_devices
  split <;> rfl

/-- Helper: on a disabled orchestrator, `get_devices` issues no fetch and
returns the cached value unchanged. -/
theorem orch_get_devices_disabled (s : OrchState)
    (fetch : Option (List HwDevice)) (hd : s.enabled = false) :
    orch_get_devices s fetch = Except.ok (s.devices, s, 0) := by
  unfold orch_get_devices
  simp [hd]

/-- Helper: a successful `get_devices` leaves the state unchanged or equal
to the state produced by `refresh_devices`. -/
theorem orch_get_devices_state (s : OrchState)
    (fetch : Option (List HwDevice)) (r : Option (List HwDevice))
    (s' : OrchState) (n : Nat)
    (hr : orch_get_devices s fetch = Except.ok (r, s', n)) :
    s' = s ∨ s' = (refresh_devices s fetch).1 := by
  obtain ⟨e, d⟩ := s
  cases e with
  | false =>
    simp [orch_get_devices] at hr
    left
    exact hr.2.1.symm
  | true =>
    cases d with
    | none => simp [orch_get_devices] at hr
    | some l =>
      by_cases hl : l.length = 0
      · simp [orch_get_devices, refresh_devices, hl] at hr
        right
        simp [refresh_devices]
        exact hr.2.1.symm
      · simp [orch_get_devices, hl] at hr
        left
        exact hr.2.1.symm

/-- Helper invariant: every orchestrator state reachable with unofficial
features disabled carries the empty cached device list. -/
theorem orch_disabled_devices_empty (s : OrchState) (h : OrchReachable s) :
    s.enabled = false → s.devices = some [] := by
  induction h with
  | init e => intro _; rfl
  | refresh s fetch h ih =>
    intro hd
    rw [refresh_devices_enabled] at hd
    unfold refresh_devices
    simp [hd]
  | get s fetch r s' n h hr ih =>
    intro hd
    rcases orch_get_devices_state s fetch r s' n hr with h2 | h2
    · rw [h2] at hd ⊢
      exact ih hd
    · rw [h2] at hd ⊢
      rw [refresh_devices_enabled] at hd
      unfold refresh_devices
      simp [hd]

/-- C2: with unofficial features enabled, `set_volume_calibration_level`
with category `ALL` on a physical zone or site issues exactly three
underlying set-calibration calls in the order PAGING, ANNOUNCEMENT, MUSIC —
the issued call list is independent of the individual outcomes, so no call
is short-circuited — and returns true iff all three underlying PUTs report
success (HTTP 204); a specific category issues exactly one underlying
call. -/
theorem c2_set_volume_calibration_all (ty id rid : String) (volume : Int)
    (respond : String → Nat)
    (_hty : ty = "physicalZone" ∨ ty = "site")
    (hrid : (splitOnUnderscore id).get? 1 = some rid) :
    (set_volume_calibration_level true ty id "ALL" volume respond =
      Except.ok ([⟨volume_typeclass ty, rid, some "PAGING", some volume⟩,
        ⟨volume_typeclass ty, rid, some "ANNOUNCEMENT", some volume⟩,
        ⟨volume_typeclass ty, rid, some "MUSIC", some volume⟩],
        set_volume_calibration_ok (respond "PAGING") &&
          set_volume_calibration_ok (respond "ANNOUNCEMENT") &&
          set_volume_calibration_ok (respond "MUSIC"))) ∧
    ((set_volume_calibration_ok (respond "PAGING") &&
        set_volume_calibration_ok (respond "ANNOUNCEMENT") &&
        set_volume_calibration_ok (respond "MUSIC")) = true ↔
      respond "PAGING" = 204 ∧ respond "ANNOUNCEMENT" = 204 ∧
        respond "MUSIC" = 204) ∧
    (∀ c, c = "MUSIC" ∨ c = "ANNOUNCEMENT" ∨ c = "PAGING" →
      set_volume_calibration_level true ty id c volume respond =
        Except.ok ([⟨volume_typeclass ty, rid, some c, some volume⟩],
          set_volume_calibration_ok (respond c))) := by
  have hrid' : (splitOnUnderscore id)[1]? = some rid := by
    rw [← List.get?_eq_getElem?]
    exact hrid
  refine ⟨?_, ?_, ?_⟩
  · simp [set_volume_calibration_level, hrid']
  · simp [set_volume_calibration_ok, and_assoc]
  · intro c hc
    rcases hc with hc | hc | hc <;> subst hc <;>
      simp [set_volume_calibration_level, hrid']

/-- Witness for C2 at the physical zone `zon_5`, gain 3, with every
underlying PUT answering 204. -/
theorem c2_witness :
    set_volume_calibration_level true "physicalZone" "zon_5" "ALL" 3
        (fun _ => 204) =
      Except.ok ([⟨"zones", "5", some "PAGING", some 3⟩,
        ⟨"zones", "5", some "ANNOUNCEMENT", some 3⟩,
        ⟨"zones", "5", some "MUSIC", some 3⟩], true) :=
  (c2_set_volume_calibration_all "physicalZone" "zon_5" "5" 3
    (fun _ => 204) (Or.inl rfl) rfl).1

/-- C3 (amended): a request at a time strictly later than the stored
expiry, or with no token held, triggers exactly one token-acquisition call
before the request proceeds, and a failed acquisition makes the request
fail; a request at a time less than or equal to the expiry with a token
held triggers zero acquisition calls. -/
theorem c3_token_refresh (s : UnoState) (t : Int) (tok : String)
    (expIn : Int) :
    ((s.access_token = none ∨ t > s.expires_at) →
      execute_api_request_auth s t (some (tok, expIn)) =
          Except.ok (1, ⟨some tok, t + expIn⟩) ∧
        execute_api_request_auth s t none =
          Except.error PyErr.runtimeError) ∧
    (s.access_token.isSome = true → t ≤ s.expires_at →
      ∀ acq, execute_api_request_auth s t acq = Except.ok (0, s)) := by
  constructor
  · intro h
    have hneed : token_refresh_needed s t = true := by
      rcases h with h | h
      · simp [token_refresh_needed, h]
      · simp [token_refresh_needed]
        right
        omega
    constructor <;>
      simp [execute_api_request_auth, hneed, get_access_token]
  · intro h1 h2 acq
    obtain ⟨v, hv⟩ := Option.isSome_iff_exists.mp h1
    have hneed : token_refresh_needed s t = false := by
      simp [token_refresh_needed, hv]
      omega
    simp [execute_api_request_auth, hneed]

/-- Witness for C3: a fresh session (no token) at time 0 acquires exactly
one token; a session holding a token that expires at 60 issues zero
acquisition calls at time 30. -/
theorem c3_witness :
    execute_api_request_auth ⟨none, 0⟩ 0 (some ("tok", 60)) =
        Except.ok (1, ⟨some "tok", 0 + 60⟩) ∧
      execute_api_request_auth ⟨some "tok", 60⟩ 30 none =
        Except.ok (0, ⟨some "tok", 60⟩) :=
  ⟨((c3_token_refresh ⟨none, 0⟩ 0 "tok" 60).1 (Or.inl rfl)).1,
    (c3_token_refresh ⟨some "tok", 60⟩ 30 "x" 0).2 rfl (by decide) none⟩

/-- Counterexample for C3 as stated: at a time exactly equal to the stored
expiry (t = T = 5) with a token held, the refresh condition
`time.time() - self.expires_at > 0` is false, so zero token-acquisition
calls are issued, while the claim demands exactly one for every time
≥ T. -/
theorem c3_counterexample :
    execute_api_request_auth ⟨some "tok", 5⟩ 5 (some ("new", 100)) =
        Except.ok (0, ⟨some "tok", 5⟩) ∧
      (0 : Nat) ≠ 1 :=
  ⟨rfl, by decide⟩

/-- C4: `play_audio_file` with a priority outside {HIGH, MEDIUM, LOW} fails
with `KeyError` and issues no network request, for every pair of lists —
in particular for empty lists, since the priority check precedes the
empty-list check; with a valid priority and an empty target or file list it
returns Python `None` (not an error) and issues no network request. -/
theorem c4_play_audio_file_validation (targets files : List String)
    (priority : String) (status : Nat) (body : Nat) :
    (¬ (priority = "HIGH" ∨ priority = "MEDIUM" ∨ priority = "LOW") →
      play_audio_file targets files priority status body =
        (Except.error PyErr.keyError, false)) ∧
    ((priority = "HIGH" ∨ priority = "MEDIUM" ∨ priority = "LOW") →
      (targets = [] ∨ files = []) →
      play_audio_file targets files priority status body =
        (Except.ok none, false)) := by
  constructor
  · intro h
    push_neg at h
    simp [play_audio_file, h.1, h.2.1, h.2.2]
  · intro hp he
    have hp' : ¬ (priority ≠ "HIGH" ∧ priority ≠ "MEDIUM" ∧
        priority ≠ "LOW") := by
      push_neg
      intro h1 h2
      rcases hp with h | h | h
      · exact absurd h h1
      · exact absurd h h2
      · exact h
    rcases he with h | h <;> subst h <;> simp [play_audio_file, hp']

/-- Witness for C4: an invalid priority with both lists empty still raises
`KeyError` without a request, and a valid priority with empty lists is a
request-free no-op. -/
theorem c4_witness :
    play_audio_file [] [] "URGENT" 200 7 =
        (Except.error PyErr.keyError, false) ∧
      play_audio_file [] ["fil_1"] "HIGH" 200 7 = (Except.ok none, false) :=
  ⟨(c4_play_audio_file_validation [] [] "URGENT" 200 7).1 (by decide),
    (c4_play_audio_file_validation [] ["fil_1"] "HIGH" 200 7).2
      (Or.inl rfl) (Or.inl rfl)⟩

/-- C5: `assign_device_to_zone` returns `True` exactly on HTTP 200 with the
device id listed in `successfulIds`, and `False` on any non-200 status, but
on HTTP 200 with no `successfulIds` key in the body it falls off the end of
the function and returns Python `None` — a third value, contradicting the
claim (and the function's own docstring, which promises a boolean). -/
theorem c5_assign_returns_none_on_200_without_ids :
    assign_device_to_zone "3" 7 200 none = none ∧
    assign_device_to_zone "3" 7 200 (some [7]) = some true ∧
    assign_device_to_zone "3" 7 200 (some [8, 9]) = some false ∧
    assign_device_to_zone "3" 7 500 (some [7]) = some false :=
  ⟨rfl, by decide, by decide, by decide⟩

/-- C8: `get_audio_target` returns Python `None` exactly when the remote
answers 404, returns the decoded record exactly on 200, and raises
`RuntimeError` for every other status. -/
theorem c8_get_audio_target_not_found (id : String) (status : Nat)
    (body : HwDevice) :
    (get_audio_target id status body = Except.ok none ↔ status = 404) ∧
    (get_audio_target id status body = Except.ok (some body) ↔
      status = 200) ∧
    (status ≠ 200 → status ≠ 404 →
      get_audio_target id status body =
        Except.error PyErr.runtimeError) := by
  by_cases h200 : status = 200
  · subst h200
    refine ⟨?_, ?_, ?_⟩
    · simp [get_audio_target]
    · simp [get_audio_target]
    · intro h; exact absurd rfl h
  · by_cases h404 : status = 404
    · subst h404
      refine ⟨?_, ?_, ?_⟩
      · simp [get_audio_target]
      · simp [get_audio_target]
      · intro _ h; exact absurd rfl h
    · refine ⟨?_, ?_, ?_⟩
      · simp [get_audio_target, h200, h404]
      · simp [get_audio_target, h200, h404]
      · intro _ _; simp [get_audio_target, h200, h404]

/-- Witness for C8: a 404 answer yields the absent record, a 200 answer
yields the record, and a 500 answer raises. -/
theorem c8_witness :
    get_audio_target "dev_5" 404 hwDevA = Except.ok none ∧
      get_audio_target "dev_5" 200 hwDevA = Except.ok (some hwDevA) ∧
      get_audio_target "dev_5" 500 hwDevA =
        Except.error PyErr.runtimeError :=
  ⟨(c8_get_audio_target_not_found "dev_5" 404 hwDevA).1.mpr rfl,
    (c8_get_audio_target_not_found "dev_5" 200 hwDevA).2.1.mpr rfl,
    (c8_get_audio_target_not_found "dev_5" 500 hwDevA).2.2
      (by decide) (by decide)⟩

/-- C6 (amended): with unofficial features disabled, every unofficial-only
operation fails deterministically rather than silently succeeding, but the
error kinds differ: getting or setting volume calibration raises
`NotImplementedError` (the UnsupportedOperation error); `Device.ding` and
`Device.assign_to_zone` fail with `AttributeError`, since the absent
unofficial driver (Python `None`) is dereferenced; and the hardware
metadata accessor fails with `KeyError` on the never-populated hardware
record. -/
theorem c6_disabled_operations_fail (ty id zone_id vtype : String)
    (status : Nat) (volumes : List (String × Int)) (volume : Int)
    (respond : String → Nat) (ids : Option (List Nat))
    (s : OrchState) (fetch : Option (List HwDevice)) (sid : Nat)
    (hs : OrchReachable s) (hd : s.enabled = false)
    (hid : numeric_sink_id id = Except.ok sid) :
    get_volume_calibration_level false ty id vtype status volumes =
      Except.error PyErr.notImplementedError ∧
    set_volume_calibration_level false ty id vtype volume respond =
      Except.error PyErr.notImplementedError ∧
    aamDevice_ding false id status = Except.error PyErr.attributeError ∧
    aamDevice_assign_to_zone false id zone_id status ids =
      Except.error PyErr.attributeError ∧
    get_mac_address s fetch id = Except.error PyErr.keyError := by
  refine ⟨rfl, rfl, rfl, rfl, ?_⟩
  have hdev : s.devices = some [] := orch_disabled_devices_empty s hs hd
  unfold get_mac_address
  rw [hid, orch_get_devices_disabled s fetch hd, hdev]
  rfl

/-- Witness for C6 at the device `dev_5` on a freshly constructed
orchestrator without web credentials. -/
theorem c6_witness :
    get_volume_calibration_level false "physicalZone" "zon_5" "ALL" 200 [] =
      Except.error PyErr.notImplementedError ∧
    set_volume_calibration_level false "physicalZone" "zon_5" "ALL" 0
        (fun _ => 204) =
      Except.error PyErr.notImplementedError ∧
    aamDevice_ding false "dev_5" 201 = Except.error PyErr.attributeError ∧
    aamDevice_assign_to_zone false "dev_5" "3" 200 (some [5]) =
      Except.error PyErr.attributeError ∧
    get_mac_address (initOrchState false) none "dev_5" =
      Except.error PyErr.keyError :=
  c6_disabled_operations_fail "physicalZone" "dev_5" "3" "ALL" 200 [] 0
    (fun _ => 204) (some [5]) (initOrchState false) none 5
    (OrchReachable.init false) rfl rfl

/-- Counterexample for C6 as stated: `Device.ding` without unofficial
credentials fails with `AttributeError` (a `None` dereference), not with
the UnsupportedOperation-style `NotImplementedError` the claim names for
every unofficial-only operation. -/
theorem c6_counterexample :
    aamDevice_ding false "dev_5" 201 = Except.error PyErr.attributeError ∧
      PyErr.attributeError ≠ PyErr.notImplementedError :=
  ⟨rfl, by decide⟩

/-- C7: a raw record of type `physicalZone` is classified as a
PhysicalZone; its volume-calibration scope string is `zones` (`sites` for
a Site); for the id `zon_5` the scope-relative id — the portion after the
underscore — is `5`, and both the GET and PUT calibration calls are issued
against scope `zones` with id `5`; the numeric portion of `zon_5`
parses to 5. -/
theorem c7_classification_and_scope :
    get_cast_object "physicalZone" = TargetClass.physicalZone ∧
    get_cast_object "site" = TargetClass.site ∧
    volume_typeclass "physicalZone" = "zones" ∧
    volume_typeclass "site" = "sites" ∧
    (splitOnUnderscore "zon_5").get? 1 = some "5" ∧
    get_volume_calibration_level true "physicalZone" "zon_5" "ALL" 200
        [("MUSIC", 3)] =
      Except.ok (⟨"zones", "5", none, none⟩,
        VolResult.all [("MUSIC", 3)]) ∧
    set_volume_calibration_level true "physicalZone" "zon_5" "MUSIC" 4
        (fun _ => 204) =
      Except.ok ([⟨"zones", "5", some "MUSIC", some 4⟩], true) ∧
    numeric_sink_id "zon_5" = Except.ok 5 :=
  ⟨rfl, rfl, rfl, rfl, rfl, rfl, rfl, rfl⟩

/-- C9: on every reachable orchestrator state with unofficial features
disabled (web credentials not both supplied), `get_devices` returns the
empty list, leaves the state unchanged and issues zero network fetches,
and `refresh_devices` clears the cache to the empty list with zero
fetches; a missing username or password makes
`are_unofficial_features_enabled` false. -/
theorem c9_get_devices_disabled (s : OrchState)
    (fetch : Option (List HwDevice))
    (hs : OrchReachable s) (hd : s.enabled = false) :
    orch_get_devices s fetch = Except.ok (some [], s, 0) ∧
    refresh_devices s fetch = ({ s with devices := some [] }, 0) ∧
    (∀ u : Option String,
      are_unofficial_features_enabled none u = false ∧
      are_unofficial_features_enabled u none = false) := by
  refine ⟨?_, ?_, ?_⟩
  · rw [orch_get_devices_disabled s fetch hd,
      orch_disabled_devices_empty s hs hd]
  · unfold refresh_devices
    simp [hd]
  · intro u
    exact ⟨rfl, by simp [are_unofficial_features_enabled]⟩

/-- Witness for C9 on the freshly constructed disabled orchestrator, with
a non-empty listing available remotely: no fetch happens and the empty
list is returned. -/
theorem c9_witness :
    orch_get_devices (initOrchState false) (some [hwDevA]) =
      Except.ok (some [], initOrchState false, 0) :=
  (c9_get_devices_disabled (initOrchState false) (some [hwDevA])
    (OrchReachable.init false) rfl).1

/-- C10: with unofficial features enabled, every `get_devices` call on an
empty cached list issues exactly one fresh fetch (so an empty server
result is re-fetched on each call), the fetch's result is stored and
returned as-is, and a non-200 unofficial listing makes that result Python
`None` — the caller receives the absent value, not an empty sequence. -/
theorem c10_get_devices_enabled_empty (s : OrchState) (status : Nat)
    (data : List HwDevice) (he : s.enabled = true)
    (hd : s.devices = some []) :
    orch_get_devices s (uno_get_devices status data) =
      Except.ok (uno_get_devices status data,
        { s with devices := uno_get_devices status data }, 1) ∧
    (status ≠ 200 → uno_get_devices status data = none) := by
  constructor
  · simp [orch_get_devices, refresh_devices, he, hd]
  · intro h
    simp [uno_get_devices, h]

/-- Witness for C10: the enabled orchestrator, fresh from construction,
re-fetches and stores the absent value when the listing answers 500. -/
theorem c10_witness :
    orch_get_devices (initOrchState true) (uno_get_devices 500 [hwDevA]) =
        Except.ok (none, ⟨true, none⟩, 1) ∧
      uno_get_devices 500 [hwDevA] = none :=
  ⟨(c10_get_devices_enabled_empty (initOrchState true) 500 [hwDevA]
      rfl rfl).1,
    (c10_get_devices_enabled_empty (initOrchState true) 500 [hwDevA]
      rfl rfl).2 (by decide)⟩
